import Mathlib

/-!
Verification of the twitterbot repository's relationship-reconciliation and
policy-filtering core, shallowly embedded from the Python sources
(src/twitterBot.py, src/TwitterBot.py, src/TwitterFollowBot/TwitterBot.py,
src/settings.py).

User ids are modelled as naturals; the newline-delimited id files are
modelled as lists of naturals (one entry per line); Python sets of ids are
modelled as Finset; the float follower/friend ratio is modelled exactly as
a rational.
-/

namespace TwitterBot

/-! ## Relationship store (src/twitterBot.py lines 294-320)

Each getter reads a newline-delimited file of integer ids into a Python
set; we model the file contents as a list and the set as its Finset. -/

/-- get_followers_list (src/twitterBot.py lines 306-312): the set of ids
read from the followers file. -/
def get_followers_list (followers_file : List ℕ) : Finset ℕ :=
  followers_file.toFinset

/-- get_follows_list (src/twitterBot.py lines 314-320): the set of ids
read from the follows file. -/
def get_follows_list (follows_file : List ℕ) : Finset ℕ :=
  follows_file.toFinset

/-- get_do_not_follow_list (src/twitterBot.py lines 294-304): the union of
the ids in the already-followed file and the non-following (ignored) file;
`dnf_list.update` over both files is set union, deduplicating on read. -/
def get_do_not_follow_list (already_followed_file non_following_file : List ℕ) :
    Finset ℕ :=
  already_followed_file.toFinset ∪ non_following_file.toFinset

/-- auto_follow_followers candidate computation (src/twitterBot.py lines
365-372): `not_following_back = list(followers - following - already_followed)`,
a Python set difference converted to a list. CPython leaves the enumeration
order of a set unspecified; the distinct surviving ids are enumerated here in
first-occurrence order of the followers file. Only membership and
duplicate-freeness are meaningful. -/
def not_following_back (followers_file follows_file already_followed_file
    non_following_file : List ℕ) : List ℕ :=
  followers_file.dedup.filter (fun x =>
    decide (x ∉ get_follows_list follows_file) &&
    decide (x ∉ get_do_not_follow_list already_followed_file non_following_file))

/-! ## Chunking (src/twitterBot.py lines 67-70)

`divide_chunks(l, n)` yields `l[i : i + n]` for `i in range(0, len(l), n)`.
For `n = 0` Python's `range` raises ValueError before yielding anything;
that case never arises (the callers use n = 99) and is modelled as the
empty result. -/

/-- divide_chunks (src/twitterBot.py lines 67-70). -/
def divide_chunks : List α → ℕ → List (List α)
  | _, 0 => []
  | [], _ + 1 => []
  | a :: l, n + 1 =>
      ((a :: l).take (n + 1)) :: divide_chunks ((a :: l).drop (n + 1)) (n + 1)
termination_by l _ => l.length
decreasing_by
  simp [List.length_drop]
  omega

/-! ## Policy filter (src/twitterBot.py lines 164-258)

`follow_user` receives a tweepy user object; the fields it reads are
modelled below. The `protected` attribute is renamed `protected_` because
`protected` is a Lean keyword. -/

/-- The fields of a user profile consumed by follow_user
(src/twitterBot.py lines 164-226). -/
structure UserProfile where
  id : ℕ
  screen_name : String
  followers_count : ℕ
  friends_count : ℕ
  statuses_count : ℕ
  protected_ : Bool
  following : Bool
  deriving DecidableEq, Repr

/-- The outcome of one run of follow_user's filtering chain. The skip
constructors are the spec's PolicyDecision values (the spec's SKIP_RATIO is
named SKIP_RATIO_BAND here); SILENT_RETURN is the bare `return` taken when
the `followers_count / friends_count` division raises ZeroDivisionError
(src/twitterBot.py lines 189-190): no decision is logged and no id is
recorded. -/
inductive PolicyDecision where
  | PROCEED
  | SKIP_LOW_FOLLOWERS
  | SKIP_RATIO_BAND
  | SKIP_GHOST
  | SKIP_PROTECTED
  | SKIP_ALREADY_FOLLOWING
  | SILENT_RETURN
  deriving DecidableEq, Repr

/-- The follower/friend ratio `user_obj.followers_count / user_obj.friends_count`
(src/twitterBot.py line 181), modelled exactly over ℚ (Python computes a
float); `mkRat n d` is the rational n / d, see `ff_ratio_eq_div`. Only
evaluated under a `friends_count ≠ 0` guard, mirroring the try/except
around the division. -/
def ff_ratio (u : UserProfile) : ℚ :=
  mkRat u.followers_count u.friends_count

/-- The modelled ratio is exactly the division of the two counts. -/
theorem ff_ratio_eq_div (u : UserProfile) :
    ff_ratio u = (u.followers_count : ℚ) / (u.friends_count : ℚ) := by
  rw [ff_ratio, Rat.mkRat_eq_div]
  push_cast
  ring

/-- The decision chain of follow_user (src/twitterBot.py lines 180-226),
in source order: the ratio-band test runs first (its division faulting
silently when friends_count = 0), then the minimum-followers test, then
the minimum-statuses (ghost) test, then protected, then already-following;
reaching the final else issues the follow (PROCEED). Defaults in the
source: n_followers = 100, followers_follow_ratio = (0.6, 1.4),
n_tweets = 100. -/
def follow_user_decision (u : UserProfile) (n_followers : ℕ)
    (ratio_low ratio_high : ℚ) (n_tweets : ℕ) : PolicyDecision :=
  if u.friends_count = 0 then
    PolicyDecision.SILENT_RETURN
  else if ¬ (ratio_low ≤ ff_ratio u ∧ ff_ratio u ≤ ratio_high) then
    PolicyDecision.SKIP_RATIO_BAND
  else if u.followers_count < n_followers then
    PolicyDecision.SKIP_LOW_FOLLOWERS
  else if u.statuses_count < n_tweets then
    PolicyDecision.SKIP_GHOST
  else if u.protected_ then
    PolicyDecision.SKIP_PROTECTED
  else if u.following then
    PolicyDecision.SKIP_ALREADY_FOLLOWING
  else
    PolicyDecision.PROCEED

/-- Which outcomes call `self.ignore_user(user_obj)` before returning
(src/twitterBot.py lines 187, 198, 203, 208, 213): every skip branch does;
the division-fault return and the follow branch do not. -/
def is_skip : PolicyDecision → Bool
  | PolicyDecision.SKIP_LOW_FOLLOWERS => true
  | PolicyDecision.SKIP_RATIO_BAND => true
  | PolicyDecision.SKIP_GHOST => true
  | PolicyDecision.SKIP_PROTECTED => true
  | PolicyDecision.SKIP_ALREADY_FOLLOWING => true
  | PolicyDecision.PROCEED => false
  | PolicyDecision.SILENT_RETURN => false

/-- Whether the outcome issues the remote follow call
`self.twitter.create_friendship` (src/twitterBot.py line 219): only the
final else branch does. -/
def issues_follow (d : PolicyDecision) : Bool :=
  d == PolicyDecision.PROCEED

/-- The body of follow_user after its early-return pre-check, together
with its side effect on the ignored (non_following) file: the decision
chain of src/twitterBot.py lines 180-226 followed by `ignore_user`'s
blind append `out_file.write(f"{user_obj.id}\n")` (src/twitterBot.py
lines 249-258) on every skip outcome. The file is modelled as the list of
its lines. The pre-check of lines 175-178 is added by `follow_user_run`
below. -/
def policy_run (u : UserProfile) (n_followers : ℕ)
    (ratio_low ratio_high : ℚ) (n_tweets : ℕ) (non_following_file : List ℕ) :
    PolicyDecision × List ℕ :=
  let d := follow_user_decision u n_followers ratio_low ratio_high n_tweets
  (d, if is_skip d then non_following_file ++ [u.id] else non_following_file)

/-- The full follow_user (src/twitterBot.py lines 164-226), pre-check
included: lines 175-178 return early — producing no decision and touching
no file — when `ignore_user(user_obj, check_user=True)` finds the
profile's id among the lines of the non_following file
(src/twitterBot.py lines 252-255), or when the screen name equals
`default_settings.get("TWITTER_HANDLE")` (an absent key yields None,
modelled as comparing `some screen_name` with the lookup result, as in
the candidate filter). Otherwise the run is `policy_run`, its decision
wrapped in `some`. -/
def follow_user_run (u : UserProfile) (default_settings : List (String × String))
    (n_followers : ℕ) (ratio_low ratio_high : ℚ) (n_tweets : ℕ)
    (non_following_file : List ℕ) : Option PolicyDecision × List ℕ :=
  if u.id ∈ non_following_file ∨
      some u.screen_name = default_settings.lookup "TWITTER_HANDLE" then
    (none, non_following_file)
  else
    let pr := policy_run u n_followers ratio_low ratio_high n_tweets
      non_following_file
    (some pr.1, pr.2)

/-- First-match rule evaluation in the spec's style: the decision of the
first rule whose predicate holds, PROCEED when none does. -/
def first_match (rules : List ((UserProfile → Bool) × PolicyDecision))
    (u : UserProfile) : PolicyDecision :=
  match rules with
  | [] => PolicyDecision.PROCEED
  | (p, d) :: rest => if p u then d else first_match rest u

/-- The rejection rules of follow_user in the order the source evaluates
them (src/twitterBot.py lines 180-214): ratio band, minimum followers,
minimum statuses, protected, already-following. -/
def code_rule_order (n_followers : ℕ) (ratio_low ratio_high : ℚ)
    (n_tweets : ℕ) : List ((UserProfile → Bool) × PolicyDecision) :=
  [ (fun u => ! (decide (ratio_low ≤ ff_ratio u) && decide (ff_ratio u ≤ ratio_high)),
      PolicyDecision.SKIP_RATIO_BAND),
    (fun u => decide (u.followers_count < n_followers),
      PolicyDecision.SKIP_LOW_FOLLOWERS),
    (fun u => decide (u.statuses_count < n_tweets), PolicyDecision.SKIP_GHOST),
    (fun u => u.protected_, PolicyDecision.SKIP_PROTECTED),
    (fun u => u.following, PolicyDecision.SKIP_ALREADY_FOLLOWING) ]

/-! ## Favorite batch (src/TwitterBot.py lines 377-393)

`auto_fav_by_hashtag` iterates over the search result's statuses; a tweet
authored by the configured handle is skipped with `continue`; otherwise the
favorite call is attempted, and the `except` clause (whose comment reads
"quit on rate limit errors") only logs `str(api_error)` and falls through
to the next iteration — no error class, rate/quota errors included,
escapes the loop. -/

/-- Result of one remote call: success, or a raised error carrying its
message. -/
inductive CallResult where
  | ok
  | err (msg : String)
  deriving DecidableEq, Repr

/-- One search-result tweet as consumed by auto_fav_by_hashtag: the
author's screen name, the tweet id, and the outcome the remote favorite
call would have. -/
structure FavTweet where
  screen_name : String
  id : ℕ
  fav_result : CallResult
  deriving DecidableEq, Repr

/-- The loop of auto_fav_by_hashtag (src/TwitterBot.py lines 382-393),
returning the ids successfully favorited, in order. Own tweets are
skipped; an erroring call is logged and the loop continues with the next
tweet; there is no abort path. -/
def auto_fav_by_hashtag_run (twitter_handle : String) :
    List FavTweet → List ℕ
  | [] => []
  | t :: rest =>
    if t.screen_name == twitter_handle then
      auto_fav_by_hashtag_run twitter_handle rest
    else
      match t.fav_result with
      | CallResult.ok => t.id :: auto_fav_by_hashtag_run twitter_handle rest
      | CallResult.err _ => auto_fav_by_hashtag_run twitter_handle rest

/-! ## Hashtag-follow candidates (src/twitterBot.py lines 329-358,
src/settings.py lines 13-32)

`auto_follow_by_hashtag` deduplicates the search results by author screen
name (a dict keyed on screen name, later tweets overwriting earlier ones,
keys kept in first-appearance order) and then filters the remaining
statuses. The operator-handle test compares each author's screen name with
`self.default_settings.get("TWITTER_HANDLE")`; `ConfigSettings` stores the
handle under the lowercase key `"twitter_handle"` (and configparser
lowercases keys on read), so the configured-settings dictionary is
modelled as a string-keyed association list. A missing key makes `.get`
return None, modelled as `Option.none`; Python's `str != None` is true,
modelled by comparing `some screen_name` against the lookup result. -/

/-- The user fields of a search-result status read by
auto_follow_by_hashtag (src/twitterBot.py lines 349-358).
`profile_image_url` records the truthiness of the url string. -/
structure TweetUser where
  screen_name : String
  protected_ : Bool
  following : Bool
  profile_image_url : Bool
  friends_count : ℕ
  statuses_count : ℕ
  deriving DecidableEq, Repr

/-- A search-result status (tweet) with its author. -/
structure SearchStatus where
  id : ℕ
  user : TweetUser
  deriving DecidableEq, Repr

/-- Insertion into the `users_dict` of auto_follow_by_hashtag
(src/twitterBot.py lines 344-347): an existing key keeps its position but
takes the new tweet as value; a new key is appended. -/
def users_dict_insert (acc : List (String × SearchStatus)) (r : SearchStatus) :
    List (String × SearchStatus) :=
  if acc.any (fun p => p.1 == r.user.screen_name) then
    acc.map (fun p => if p.1 == r.user.screen_name then (p.1, r) else p)
  else
    acc ++ [(r.user.screen_name, r)]

/-- `users_dict.values()`: the last tweet of each author, in order of the
author's first appearance in the results (src/twitterBot.py lines 344-347;
the `screen_names_set` membership test on line 346 is always true, the set
being built from the same results). -/
def users_dict_values (results : List SearchStatus) : List SearchStatus :=
  (results.foldl users_dict_insert []).map Prod.snd

/-- The relevant slice of ConfigSettings.default_settings
(src/settings.py lines 13-32): the operator's handle is stored under the
lowercase key "twitter_handle". -/
def config_settings (twitter_handle : String) : List (String × String) :=
  [("twitter_handle", twitter_handle)]

/-- The candidate list `statuses` of auto_follow_by_hashtag
(src/twitterBot.py lines 349-358): author-deduplicated statuses whose
author's screen name differs from `default_settings.get("TWITTER_HANDLE")`
and which pass the protected/following/profile-image/friends/statuses
tests. Source defaults: friends_count = 300, count = 200. -/
def auto_follow_by_hashtag_candidates (default_settings : List (String × String))
    (friends_count count : ℕ) (results : List SearchStatus) : List SearchStatus :=
  (users_dict_values results).filter (fun i =>
    (some i.user.screen_name != default_settings.lookup "TWITTER_HANDLE")
    && ! i.user.protected_
    && ! i.user.following
    && i.user.profile_image_url
    && decide (i.user.friends_count > friends_count)
    && decide (i.user.statuses_count > count))

/-! ## Pacing delay (src/TwitterBot.py lines 157-177) -/

/-- wait_to_confuse_twitter (src/TwitterBot.py lines 157-177). The two
backoff entries of BOT_CONFIG are modelled as an integer-valued
association list (both are absent when not configured); `randint` is the
random draw, returning none exactly when Python's `random.randint(a, b)`
would raise ValueError (empty range a > b). The result is the wait time
together with whether `time.sleep` ran (`wait_time > 0`); none models an
escaped exception. -/
def wait_to_confuse_twitter (bot_config : List (String × ℤ))
    (randint : ℤ → ℤ → Option ℤ) : Option (ℤ × Bool) :=
  let min_time := (bot_config.lookup "FOLLOW_BACKOFF_MIN_SECONDS").getD 0
  let max_time := (bot_config.lookup "FOLLOW_BACKOFF_MAX_SECONDS").getD 0
  let bounds := if min_time > max_time then (max_time, min_time)
                else (min_time, max_time)
  match randint bounds.1 bounds.2 with
  | none => none
  | some wait_time => some (wait_time, decide (wait_time > 0))

/-- The contract of Python's `random.randint`: on a non-empty range it
returns some value inside the range. -/
def RandintSpec (randint : ℤ → ℤ → Option ℤ) : Prop :=
  ∀ lo hi : ℤ, lo ≤ hi → ∃ r, randint lo hi = some r ∧ lo ≤ r ∧ r ≤ hi

/-! ## Unfollow whitelist (src/TwitterBot.py lines 470-496) -/

/-- The ids auto_unfollow_nonfollowers actually unfollows
(src/TwitterBot.py lines 479 and 494-496): the
`not_following_back = list(following - followers)` set difference
(enumerated in first-occurrence order of the follows file; CPython set
order is unspecified), keeping only ids not in the USERS_KEEP_FOLLOWING
whitelist. -/
def auto_unfollow_nonfollowers_targets (follows_file followers_file : List ℕ)
    (users_keep_following : Finset ℕ) : List ℕ :=
  (follows_file.dedup.filter (fun x =>
    decide (x ∉ get_followers_list followers_file))).filter
    (fun user_id => decide (user_id ∉ users_keep_following))

/-! ## Claims -/

/-- C1: the follow-back candidate computation of auto_follow_followers is
the set difference followers minus following minus already-followed/ignored:
an id is a candidate exactly when it is a follower and in neither of the
other two sets, the candidate list has no duplicates, and for
followers = {1,2,3}, following = {2,3}, ignored = {} the candidates are
exactly {1}. -/
theorem not_following_back_spec :
    (∀ (followers_file follows_file already_followed_file
        non_following_file : List ℕ) (x : ℕ),
      x ∈ not_following_back followers_file follows_file already_followed_file
          non_following_file ↔
        x ∈ get_followers_list followers_file ∧
        x ∉ get_follows_list follows_file ∧
        x ∉ get_do_not_follow_list already_followed_file non_following_file) ∧
    (∀ followers_file follows_file already_followed_file
        non_following_file : List ℕ,
      (not_following_back followers_file follows_file already_followed_file
        non_following_file).Nodup) ∧
    not_following_back [1, 2, 3] [2, 3] [] [] = [1] := by
  refine ⟨?_, ?_, by decide⟩
  · intro followers_file follows_file already_followed_file non_following_file x
    simp [not_following_back, get_followers_list, List.mem_filter]
  · intro followers_file follows_file already_followed_file non_following_file
    exact (List.nodup_dedup _).filter _

/-- C2 counterexample: a profile that is already following the requester
(rule 1 of the claimed precedence) and protected (rule 2) but whose
follower/friend ratio (1000) lies outside the band receives SKIP_RATIO
from the code, not SKIP_ALREADY_FOLLOWING as the claimed precedence
(already-following first) predicts: the code evaluates the ratio band
first. -/
theorem follow_user_precedence_counterexample :
    follow_user_decision ⟨9, "u", 1000, 1, 1000, true, true⟩ 100
        (mkRat 3 5) (mkRat 7 5) 100 = PolicyDecision.SKIP_RATIO_BAND ∧
    PolicyDecision.SKIP_RATIO_BAND ≠ PolicyDecision.SKIP_ALREADY_FOLLOWING := by
  decide

/-- C2 (amended): follow_user evaluates the rejection rules with first
match winning, but in the source's order — ratio band first, then
minimum followers, then minimum statuses (ghost), then protected, then
already-following — whenever the ratio division does not fault. -/
theorem follow_user_decision_eq_first_match (u : UserProfile)
    (n_followers : ℕ) (ratio_low ratio_high : ℚ) (n_tweets : ℕ)
    (h : u.friends_count ≠ 0) :
    follow_user_decision u n_followers ratio_low ratio_high n_tweets =
      first_match (code_rule_order n_followers ratio_low ratio_high n_tweets) u := by
  by_cases hlo : ratio_low ≤ ff_ratio u <;>
    by_cases hhi : ff_ratio u ≤ ratio_high <;>
      by_cases h2 : u.followers_count < n_followers <;>
        by_cases h3 : u.statuses_count < n_tweets <;>
          simp_all [follow_user_decision, first_match, code_rule_order,
            not_and_or, not_le]

/-- C2 witness: the amended precedence theorem at a concrete profile. -/
theorem follow_user_decision_eq_first_match_witness :
    follow_user_decision ⟨4, "w", 120, 100, 150, false, false⟩ 100
        (mkRat 3 5) (mkRat 7 5) 100 =
      first_match (code_rule_order 100 (mkRat 3 5) (mkRat 7 5) 100)
        ⟨4, "w", 120, 100, 150, false, false⟩ :=
  follow_user_decision_eq_first_match _ _ _ _ _ (by decide)

/-- Divide-chunks properties at chunk size 99, by strong induction on the
length bound: the chunk count is the ceiling of length / 99, every chunk
has at most 99 elements, and the chunks concatenate back to the list. -/
theorem divide_chunks_99_aux : ∀ (m : ℕ) (l : List α), l.length ≤ m →
    (divide_chunks l 99).flatten = l ∧
    (divide_chunks l 99).length = (l.length + 98) / 99 ∧
    ∀ c ∈ divide_chunks l 99, c.length ≤ 99 := by
  intro m
  induction m with
  | zero =>
    intro l hl
    have hnil : l = [] := List.length_eq_zero.mp (Nat.le_zero.mp hl)
    subst hnil
    simp [divide_chunks]
  | succ m ih =>
    intro l hl
    cases l with
    | nil => simp [divide_chunks]
    | cons a t =>
      have hdrop : ((a :: t).drop 99).length ≤ m := by
        simp only [List.length_drop, List.length_cons]
        simp only [List.length_cons] at hl
        omega
      obtain ⟨hj, hlen, hsize⟩ := ih _ hdrop
      rw [divide_chunks]
      refine ⟨?_, ?_, ?_⟩
      · rw [List.flatten_cons, hj, List.take_append_drop]
      · simp only [List.length_cons, hlen, List.length_drop]
        omega
      · intro c hc
        rcases List.mem_cons.mp hc with rfl | hc
        · exact List.length_take_le 99 (a :: t)
        · exact hsize c hc

/-- C3: divide_chunks with chunk size 99 yields exactly
ceil(length / 99) = (length + 98) / 99 chunks, each of length at most 99,
and concatenating the chunks in order reproduces the input list exactly
once. -/
theorem divide_chunks_spec (l : List α) :
    (divide_chunks l 99).length = (l.length + 98) / 99 ∧
    (∀ c ∈ divide_chunks l 99, c.length ≤ 99) ∧
    (divide_chunks l 99).flatten = l := by
  obtain ⟨hj, hlen, hsize⟩ := divide_chunks_99_aux l.length l le_rfl
  exact ⟨hlen, hsize, hj⟩

/-- C4 counterexample: for a profile with friends_count = 0 the policy
filter takes the bare except-branch return — no SKIP_RATIO decision and
no append to the ignored file — contradicting the claim that the ratio is
treated as 0 and the profile receives SKIP_RATIO with its id recorded. -/
theorem follow_user_zero_friends_counterexample :
    policy_run ⟨7, "z", 10, 0, 10, false, false⟩ 100 (mkRat 3 5) (mkRat 7 5)
        100 [] = (PolicyDecision.SILENT_RETURN, []) ∧
    PolicyDecision.SILENT_RETURN ≠ PolicyDecision.SKIP_RATIO_BAND := by
  decide

/-- C4 (amended): for every profile with friends_count = 0, follow_user
does not fault — the ZeroDivisionError is caught — but the except branch
returns silently: no decision is produced, no follow is issued, and the
ignored file is left unchanged (the ratio is not treated as 0; only the
user_stats string formatter does that). -/
theorem follow_user_zero_friends_silent (u : UserProfile) (n_followers : ℕ)
    (ratio_low ratio_high : ℚ) (n_tweets : ℕ) (non_following_file : List ℕ)
    (h : u.friends_count = 0) :
    policy_run u n_followers ratio_low ratio_high n_tweets non_following_file =
      (PolicyDecision.SILENT_RETURN, non_following_file) := by
  simp [policy_run, follow_user_decision, h, is_skip]

/-- C4 witness: the amended silent-return theorem at a concrete profile
with zero friends and a non-empty ignored file. -/
theorem follow_user_zero_friends_silent_witness :
    policy_run ⟨8, "q", 25, 0, 5, true, false⟩ 100 (mkRat 3 5) (mkRat 7 5)
        100 [4] = (PolicyDecision.SILENT_RETURN, [4]) :=
  follow_user_zero_friends_silent _ _ _ _ _ _ rfl

/-- C5 counterexample: a fresh profile that the first run skips
(followers 10 < 100, ratio 1 inside the band) receives
SKIP_LOW_FOLLOWERS and its id is appended to the ignored file; the second
run on the same profile then short-circuits on follow_user's
already-ignored pre-check and yields no decision at all — not the same
decision as the first run, contrary to the claim. -/
theorem follow_user_second_run_counterexample :
    (follow_user_run ⟨12, "d", 10, 10, 10, false, false⟩
        (config_settings "op") 100 (mkRat 3 5) (mkRat 7 5) 100 []).1 =
      some PolicyDecision.SKIP_LOW_FOLLOWERS ∧
    (follow_user_run ⟨12, "d", 10, 10, 10, false, false⟩
        (config_settings "op") 100 (mkRat 3 5) (mkRat 7 5) 100
        (follow_user_run ⟨12, "d", 10, 10, 10, false, false⟩
          (config_settings "op") 100 (mkRat 3 5) (mkRat 7 5) 100 []).2).1 =
      none ∧
    some PolicyDecision.SKIP_LOW_FOLLOWERS ≠ (none : Option PolicyDecision) := by
  decide

/-- C5 (amended): running follow_user twice in succession on the same
profile with the same thresholds leaves the ignored file — hence the
logical ignored set, the file read with duplicates removed — unchanged by
the second run, which appends no duplicate line; but the second run
yields the same decision as the first only when the first run did not
skip: after any skip outcome the id is in the ignored file, so the second
run stops at the already-ignored pre-check (src/twitterBot.py lines
175-178) and produces no decision, a no-op on that id. -/
theorem follow_user_run_second_run (u : UserProfile)
    (default_settings : List (String × String)) (n_followers : ℕ)
    (ratio_low ratio_high : ℚ) (n_tweets : ℕ) (non_following_file : List ℕ) :
    (follow_user_run u default_settings n_followers ratio_low ratio_high
        n_tweets (follow_user_run u default_settings n_followers ratio_low
          ratio_high n_tweets non_following_file).2).2 =
      (follow_user_run u default_settings n_followers ratio_low ratio_high
        n_tweets non_following_file).2 ∧
    (follow_user_run u default_settings n_followers ratio_low ratio_high
        n_tweets (follow_user_run u default_settings n_followers ratio_low
          ratio_high n_tweets non_following_file).2).1 =
      match (follow_user_run u default_settings n_followers ratio_low
          ratio_high n_tweets non_following_file).1 with
      | some d => if is_skip d then none else some d
      | none => none := by
  by_cases hpre : u.id ∈ non_following_file ∨
      some u.screen_name = default_settings.lookup "TWITTER_HANDLE"
  · simp [follow_user_run, hpre]
  · by_cases hsk : is_skip (follow_user_decision u n_followers ratio_low
        ratio_high n_tweets) = true
    · have hpre2 : u.id ∈ non_following_file ++ [u.id] ∨
          some u.screen_name = default_settings.lookup "TWITTER_HANDLE" :=
        Or.inl (List.mem_append_right _ (List.mem_singleton.mpr rfl))
      simp [follow_user_run, policy_run, hpre, hsk, hpre2]
    · simp [follow_user_run, policy_run, hpre, hsk]

/-- C6: a candidate profile below the minimum-followers threshold that no
earlier-evaluated rule rejects (the division does not fault, the ratio is
inside the band) and that the claimed higher-precedence rules do not
reject either (not protected, not already following) receives
SKIP_LOW_FOLLOWERS: no follow is issued and the profile's id is appended
to the ignored file. -/
theorem follow_user_low_followers_skip (u : UserProfile) (n_followers : ℕ)
    (ratio_low ratio_high : ℚ) (n_tweets : ℕ) (non_following_file : List ℕ)
    (hfr : u.friends_count ≠ 0)
    (hlo : ratio_low ≤ ff_ratio u) (hhi : ff_ratio u ≤ ratio_high)
    (_hprot : u.protected_ = false) (_hfoll : u.following = false)
    (hlow : u.followers_count < n_followers) :
    policy_run u n_followers ratio_low ratio_high n_tweets non_following_file =
      (PolicyDecision.SKIP_LOW_FOLLOWERS, non_following_file ++ [u.id]) ∧
    issues_follow (policy_run u n_followers ratio_low ratio_high n_tweets
        non_following_file).1 = false := by
  have hd : follow_user_decision u n_followers ratio_low ratio_high n_tweets =
      PolicyDecision.SKIP_LOW_FOLLOWERS := by
    simp [follow_user_decision, hfr, hlo, hhi, hlow]
  exact ⟨by simp [policy_run, hd, is_skip],
    by simp [policy_run, hd, issues_follow]⟩

/-- C6 witness: the spec scenario followers_count = 50 with
min_followers = 100 (friends_count = 50, so the ratio 1 is inside the
default band): decision SKIP_LOW_FOLLOWERS, id 3 appended, no follow. -/
theorem follow_user_low_followers_skip_witness :
    policy_run ⟨3, "c", 50, 50, 200, false, false⟩ 100 (mkRat 3 5)
        (mkRat 7 5) 100 [] = (PolicyDecision.SKIP_LOW_FOLLOWERS, [3]) ∧
    issues_follow (policy_run ⟨3, "c", 50, 50, 200, false, false⟩ 100
        (mkRat 3 5) (mkRat 7 5) 100 []).1 = false :=
  follow_user_low_followers_skip _ _ _ _ _ _ (by decide) (by decide)
    (by decide) rfl rfl (by decide)

/-- C7: at the failing input — a favorite batch whose first tweet raises a
rate-limit/quota error — auto_fav_by_hashtag logs and continues with the
next tweet (the second tweet is still favorited): the quota-class error is
not propagated and does not abort the run, contrary to the claim (and to
the handler's own "quit on rate limit errors" comment). -/
theorem auto_fav_continues_after_rate_limit_error :
    auto_fav_by_hashtag_run "op"
      [⟨"alice", 11, CallResult.err "Rate limit exceeded"⟩,
        ⟨"bob", 22, CallResult.ok⟩] = [22] := by
  rfl

/-- C8: at the failing input — operator handle "alice", stored by
ConfigSettings under the lowercase key "twitter_handle", and a search
result authored by "alice" passing the other filters — the candidate list
of auto_follow_by_hashtag retains the operator's own post: the filter
looks up the key "TWITTER_HANDLE", which is absent, so it compares the
author against None and excludes no one, contrary to the claim that the
operator's own account is excluded unconditionally. -/
theorem auto_follow_by_hashtag_keeps_own_account :
    auto_follow_by_hashtag_candidates (config_settings "alice") 300 200
        [⟨1, ⟨"alice", false, false, true, 301, 201⟩⟩] =
      [⟨1, ⟨"alice", false, false, true, 301, 201⟩⟩] := by
  decide

/-- C9: for every configuration of the two backoff bounds (absent entries
defaulting to 0, inverted bounds included) and every randint meeting
Python's contract, wait_to_confuse_twitter never raises: it returns a wait
time between the smaller and the larger configured bound (the bounds are
swapped before drawing), and with no configuration at all it returns 0
and does not sleep. -/
theorem wait_to_confuse_twitter_safe (bot_config : List (String × ℤ))
    (randint : ℤ → ℤ → Option ℤ) (hrand : RandintSpec randint) :
    ∃ w slept, wait_to_confuse_twitter bot_config randint = some (w, slept) ∧
      min ((bot_config.lookup "FOLLOW_BACKOFF_MIN_SECONDS").getD 0)
          ((bot_config.lookup "FOLLOW_BACKOFF_MAX_SECONDS").getD 0) ≤ w ∧
      w ≤ max ((bot_config.lookup "FOLLOW_BACKOFF_MIN_SECONDS").getD 0)
          ((bot_config.lookup "FOLLOW_BACKOFF_MAX_SECONDS").getD 0) ∧
      (bot_config.lookup "FOLLOW_BACKOFF_MIN_SECONDS" = none →
        bot_config.lookup "FOLLOW_BACKOFF_MAX_SECONDS" = none →
        w = 0 ∧ slept = false) := by
  rw [wait_to_confuse_twitter]
  by_cases hab : (bot_config.lookup "FOLLOW_BACKOFF_MIN_SECONDS").getD 0 >
      (bot_config.lookup "FOLLOW_BACKOFF_MAX_SECONDS").getD 0
  · obtain ⟨r, hr, h1, h2⟩ := hrand _ _ (le_of_lt hab)
    refine ⟨r, decide (r > 0), ?_, ?_, ?_, ?_⟩
    · simp only [hab, if_pos, if_true]
      rw [hr]
    · exact le_trans (min_le_right _ _) h1
    · exact le_trans h2 (le_max_left _ _)
    · intro hmin hmax
      rw [hmin, hmax] at hab
      simp at hab
  · obtain ⟨r, hr, h1, h2⟩ := hrand _ _ (not_lt.mp hab)
    refine ⟨r, decide (r > 0), ?_, ?_, ?_, ?_⟩
    · simp only [hab, if_neg, if_false]
      rw [hr]
    · exact le_trans (min_le_left _ _) h1
    · exact le_trans h2 (le_max_right _ _)
    · intro hmin hmax
      rw [hmin] at h1
      rw [hmax] at h2
      simp at h1 h2
      have hr0 : r = 0 := le_antisymm h2 h1
      subst hr0
      exact ⟨rfl, rfl⟩

/-- C9 witness: the safety theorem at a concrete configuration with only
the minimum bound set (to 7, so the bounds are inverted and swapped) and
a concrete randint returning the low end of the range. -/
theorem wait_to_confuse_twitter_safe_witness :
    ∃ w slept, wait_to_confuse_twitter [("FOLLOW_BACKOFF_MIN_SECONDS", (7 : ℤ))]
        (fun lo hi => if lo ≤ hi then some lo else none) = some (w, slept) ∧
      min (([(("FOLLOW_BACKOFF_MIN_SECONDS", (7 : ℤ)))].lookup
            "FOLLOW_BACKOFF_MIN_SECONDS").getD 0)
          (([(("FOLLOW_BACKOFF_MIN_SECONDS", (7 : ℤ)))].lookup
            "FOLLOW_BACKOFF_MAX_SECONDS").getD 0) ≤ w ∧
      w ≤ max (([(("FOLLOW_BACKOFF_MIN_SECONDS", (7 : ℤ)))].lookup
            "FOLLOW_BACKOFF_MIN_SECONDS").getD 0)
          (([(("FOLLOW_BACKOFF_MIN_SECONDS", (7 : ℤ)))].lookup
            "FOLLOW_BACKOFF_MAX_SECONDS").getD 0) ∧
      ([(("FOLLOW_BACKOFF_MIN_SECONDS", (7 : ℤ)))].lookup
          "FOLLOW_BACKOFF_MIN_SECONDS" = none →
        [(("FOLLOW_BACKOFF_MIN_SECONDS", (7 : ℤ)))].lookup
          "FOLLOW_BACKOFF_MAX_SECONDS" = none →
        w = 0 ∧ slept = false) :=
  wait_to_confuse_twitter_safe _ _ (fun lo hi h =>
    ⟨lo, by simp [h], le_refl lo, h⟩)

/-- C10: an id on the USERS_KEEP_FOLLOWING whitelist is never an unfollow
target of auto_unfollow_nonfollowers, whether or not it lies in the
following-minus-followers difference. -/
theorem auto_unfollow_respects_keep_following (follows_file
    followers_file : List ℕ) (users_keep_following : Finset ℕ) (x : ℕ)
    (hx : x ∈ users_keep_following) :
    x ∉ auto_unfollow_nonfollowers_targets follows_file followers_file
      users_keep_following := by
  intro hmem
  rw [auto_unfollow_nonfollowers_targets, List.mem_filter] at hmem
  have := hmem.2
  simp at this
  exact this hx

/-- C10 witness: id 5, whitelisted, in the following-minus-followers
difference, is not an unfollow target. -/
theorem auto_unfollow_respects_keep_following_witness :
    5 ∉ auto_unfollow_nonfollowers_targets [5, 6] [] {5} :=
  auto_unfollow_respects_keep_following _ _ _ _ (by decide)

end TwitterBot
